import Mathlib

/-!
Shallow embedding of the FTRL model binding layer of the datatable repository
(src/c/models/py_ftrl.cc), together with a model of the dt::Ftrl engine state
it drives. Machine floating-point scalars are embedded as rationals; Python
objects crossing the binding boundary are embedded as the PyValue type; C++
exceptions are embedded as Except results.
-/

namespace FtrlSpec

/-- Column storage types of the host frame engine (the subset relevant to the
FTRL binding: the two floating widths and a boolean target type). -/
inductive SType where
  | FLOAT32
  | FLOAT64
  | BOOL8
  deriving DecidableEq

/-- A column of the host frame engine: a storage type tag plus its values,
embedded as rationals. -/
structure Column where
  stype : SType
  data : List Rat
  deriving DecidableEq

/-- A data table (frame): a row count and a list of columns. -/
structure DataTable where
  nrows : Nat
  columns : List Column
  deriving DecidableEq

/-- Number of columns of a frame. -/
def DataTable.ncols (dt : DataTable) : Nat := dt.columns.length

/-- The empty frame. -/
def emptyTable : DataTable := { nrows := 0, columns := [] }

/-- Errors thrown by the binding layer. The source throws py::ValueError and
py::TypeError; the spec taxonomy (ConfigurationError / ShapeError / StateError /
TypeMismatchError) is a relabelling of these throw sites. -/
inductive PyError where
  | valueError (msg : String)
  | typeError (msg : String)
  deriving DecidableEq

/-- True when a binding call raised an error. -/
def errored {α : Type} (r : Except PyError α) : Bool :=
  match r with
  | .error _ => true
  | .ok _ => false

/-- Modelled from the spec: py::Validator::check_positive (py_validator.h is not
among the sources). Per section 4.1 the validator rejects values that are not
strictly positive. -/
def Validator.check_positive (x : Rat) (name : String) : Except PyError Unit :=
  if x ≤ 0 then .error (.valueError ("Input " ++ name ++ " should be positive")) else .ok ()

/-- Modelled from the spec: py::Validator::check_not_negative (py_validator.h is
not among the sources). Per section 4.1 the validator rejects negative values. -/
def Validator.check_not_negative (x : Rat) (name : String) : Except PyError Unit :=
  if x < 0 then .error (.valueError ("Input " ++ name ++ " should not be negative")) else .ok ()

/-- Modelled from the spec: py::Validator::has_negatives (py_validator.h is not
among the sources). True when some value of the column is negative. -/
def Validator.has_negatives (c : Column) : Bool :=
  c.data.any (fun v => decide (v < 0))

/-- Hyperparameters of the FTRL model (dt::FtrlParams). Default values are the
documented constants referred to by section 4.1 of the spec. -/
structure FtrlParams where
  alpha : Rat := mkRat 5 1000
  beta : Rat := 1
  lambda1 : Rat := 0
  lambda2 : Rat := 0
  nbins : Nat := 1000000
  nepochs : Nat := 1
  interactions : Bool := false
  double_precision : Bool := false
  deriving DecidableEq

/-- Modelled from the spec: the state of the dt::Ftrl engine (ftrl.cc/ftrl.h are
not among the sources). Per section 3, a model starts untrained with weight
arrays unallocated (model = none); fit allocates them and records the training
column count and the column-name hashes. -/
structure FtrlModel where
  params : FtrlParams
  model : Option DataTable := none
  fi : DataTable := emptyTable
  dt_X_ncols : Nat := 0
  colname_hashes : List Nat := []
  deriving DecidableEq

/-- Modelled from the spec: dt::Ftrl::is_trained; the model is trained exactly
when its weight arrays are allocated. -/
def FtrlModel.is_trained (m : FtrlModel) : Bool := m.model.isSome

/-- Modelled from the spec: dt::Ftrl::reset deallocates back to the untrained
state without touching hyperparameters. -/
def FtrlModel.reset (m : FtrlModel) : FtrlModel :=
  { m with model := none, fi := emptyTable, dt_X_ncols := 0, colname_hashes := [] }

/-- Regression type tag of the binding object (py::Ftrl::reg_type). -/
inductive RegType where
  | NONE
  | BINOMIAL
  | MULTINOMIAL
  deriving DecidableEq

/-- Integer encoding of RegType used by the pickling methods. -/
def RegType.toInt : RegType → Int
  | .NONE => 0
  | .BINOMIAL => 1
  | .MULTINOMIAL => 2

/-- Inverse of the integer encoding of RegType (static_cast in m__setstate__). -/
def RegType.ofInt (n : Int) : RegType :=
  if n = 0 then .NONE else if n = 1 then .BINOMIAL else .MULTINOMIAL

/-- State of the py::Ftrl binding object: the engine model, the regression type
tag and the reference-counted label list. -/
structure PyFtrl where
  dtft : FtrlModel
  reg_type : RegType := .NONE
  labels : List String := ["target"]
  deriving DecidableEq

/-- Python values crossing the binding boundary. -/
inductive PyValue where
  | pynone
  | pybool (b : Bool)
  | pyint (n : Int)
  | pyfloat (x : Rat)
  | pystr (s : String)
  | pyframe (dt : DataTable)
  | pytuple (xs : List PyValue)

/-- robj::to_otuple: succeeds only on a tuple. -/
def PyValue.to_otuple : PyValue → Except PyError (List PyValue)
  | .pytuple xs => .ok xs
  | _ => .error (.typeError "expected a tuple")

/-- robj::to_bool_strict: succeeds only on a boolean. -/
def PyValue.to_bool_strict : PyValue → Except PyError Bool
  | .pybool b => .ok b
  | _ => .error (.typeError "expected a boolean")

/-- robj::to_double: succeeds on a float or an integer. -/
def PyValue.to_double : PyValue → Except PyError Rat
  | .pyfloat x => .ok x
  | .pyint n => .ok (n : Rat)
  | _ => .error (.typeError "expected a float")

/-- robj::to_size_t: succeeds on a non-negative integer. -/
def PyValue.to_size_t : PyValue → Except PyError Nat
  | .pyint n => if n < 0 then .error (.valueError "expected a non-negative integer")
                else .ok n.toNat
  | _ => .error (.typeError "expected an integer")

/-- robj::to_int32: succeeds on an integer. -/
def PyValue.to_int32 : PyValue → Except PyError Int
  | .pyint n => .ok n
  | _ => .error (.typeError "expected an integer")

/-- py::Ftrl::set_labels (py_ftrl.cc lines 312-323): a single label is rejected;
an empty list gets the default label "target" appended; otherwise the list is
kept as given. -/
def Ftrl.set_labels (labels_in : List String) : Except PyError (List String) :=
  if labels_in.length = 1 then
    .error (.valueError "List of labels can not have one element")
  else if labels_in.length = 0 then
    .ok (labels_in ++ ["target"])
  else
    .ok labels_in

/-- Arguments of the py::Ftrl constructor. Each argument is optional (None or
undefined in Python are both modelled as none); the params bundle is modelled
as an already-converted FtrlParams record, since attribute extraction and the
scalar conversions are plain marshalling. -/
structure InitArgs where
  params : Option FtrlParams := none
  labels : Option (List String) := none
  alpha : Option Rat := none
  beta : Option Rat := none
  lambda1 : Option Rat := none
  lambda2 : Option Rat := none
  nbins : Option Nat := none
  nepochs : Option Nat := none
  interactions : Option Bool := none
  double_precision : Option Bool := none

/-- py::Ftrl::m__init__ (py_ftrl.cc lines 40-142). With a params bundle no
individual parameter may be supplied; the bundle path validates alpha as
positive and beta, lambda1, lambda2 and nbins as non-negative (the nbins check
in the source is check_not_negative applied to the value cast to double). The
individual path validates each supplied value, with nbins checked positive and
nepochs unchecked. Then the labels are normalized and the engine constructed. -/
def Ftrl.m__init__ (args : InitArgs) : Except PyError PyFtrl := do
  let mut fp : FtrlParams := {}
  match args.params with
  | some p =>
    if args.alpha.isSome || args.beta.isSome || args.lambda1.isSome ||
       args.lambda2.isSome || args.nbins.isSome || args.nepochs.isSome ||
       args.interactions.isSome || args.double_precision.isSome then
      throw (.typeError "You can either pass all the parameters with params or any of the individual parameters, but not both at the same time")
    fp := p
    Validator.check_positive p.alpha "alpha"
    Validator.check_not_negative p.beta "beta"
    Validator.check_not_negative p.lambda1 "lambda1"
    Validator.check_not_negative p.lambda2 "lambda2"
    Validator.check_not_negative (p.nbins : Rat) "nbins"
  | none =>
    if let some a := args.alpha then
      Validator.check_positive a "alpha"
      fp := { fp with alpha := a }
    if let some b := args.beta then
      Validator.check_not_negative b "beta"
      fp := { fp with beta := b }
    if let some l1 := args.lambda1 then
      Validator.check_not_negative l1 "lambda1"
      fp := { fp with lambda1 := l1 }
    if let some l2 := args.lambda2 then
      Validator.check_not_negative l2 "lambda2"
      fp := { fp with lambda2 := l2 }
    if let some nb := args.nbins then
      Validator.check_positive (nb : Rat) "nbins"
      fp := { fp with nbins := nb }
    if let some ne := args.nepochs then
      fp := { fp with nepochs := ne }
    if let some ia := args.interactions then
      fp := { fp with interactions := ia }
    if let some dp := args.double_precision then
      fp := { fp with double_precision := dp }
  let lbls ← Ftrl.set_labels (args.labels.getD [])
  pure { dtft := { params := fp }, reg_type := .NONE, labels := lbls }

/-- Modelled from the spec: dt::Ftrl::dispatch_fit (engine, not among the
sources). Per section 4.4 it allocates classifier arrays sized nbins, records
the training column count and the column-name hashes. The floating-point
weight updates and the 64-bit hash values are abstracted (no claim settled in
this development depends on the trained numeric values). -/
def FtrlModel.dispatch_fit (m : FtrlModel) (dt_X : DataTable) (_dt_y : DataTable) : FtrlModel :=
  let w : SType := if m.params.double_precision then .FLOAT64 else .FLOAT32
  { m with
    model := some { nrows := m.params.nbins,
                    columns := [{ stype := w, data := List.replicate m.params.nbins 0 },
                                { stype := w, data := List.replicate m.params.nbins 0 }] },
    fi := { nrows := dt_X.ncols,
            columns := [{ stype := w, data := List.replicate dt_X.ncols 0 }] },
    dt_X_ncols := dt_X.ncols,
    colname_hashes := List.replicate dt_X.ncols 0 }

/-- py::Ftrl::fit (py_ftrl.cc lines 170-201): the four shape checks in source
order, then the engine dispatch_fit. -/
def Ftrl.fit (st : PyFtrl) (dt_X dt_y : DataTable) : Except PyError PyFtrl :=
  if dt_X.ncols = 0 then
    .error (.valueError "Training frame must have at least one column")
  else if dt_X.nrows = 0 then
    .error (.valueError "Training frame cannot be empty")
  else if dt_y.ncols ≠ 1 then
    .error (.valueError "Target frame must have exactly one column")
  else if dt_X.nrows ≠ dt_y.nrows then
    .error (.valueError "Target column must have the same number of rows as the training frame")
  else
    .ok { st with dtft := st.dtft.dispatch_fit dt_X dt_y }

/-- The state of the binding object after a fit call together with the raised
error, if any: a thrown exception propagates and leaves the object unchanged
(all four shape checks in the source precede the only mutation, dispatch_fit). -/
def Ftrl.fit_result (st : PyFtrl) (dt_X dt_y : DataTable) : PyFtrl × Option PyError :=
  match Ftrl.fit st dt_X dt_y with
  | .ok st2 => (st2, none)
  | .error e => (st, some e)

/-- Modelled from the spec: dt::Ftrl::predict (engine, not among the sources).
Per section 4.5 it produces one probability column per classifier with one row
per input row; the floating-point sigmoid scoring is abstracted to a constant
(no claim settled in this development depends on the predicted values). -/
def FtrlModel.predict_table (m : FtrlModel) (dt_X : DataTable) : DataTable :=
  let w : SType := if m.params.double_precision then .FLOAT64 else .FLOAT32
  { nrows := dt_X.nrows,
    columns := [{ stype := w, data := List.replicate dt_X.nrows (mkRat 1 2) }] }

/-- py::Ftrl::predict (py_ftrl.cc lines 227-255): untrained models are
rejected; then the column count of X is compared with the column count
recorded at training time, but only when the recorded count is nonzero. -/
def Ftrl.predict (st : PyFtrl) (dt_X : DataTable) : Except PyError DataTable :=
  if st.dtft.is_trained = false then
    .error (.valueError "Cannot make any predictions, train or set the model first")
  else if dt_X.ncols ≠ st.dtft.dt_X_ncols ∧ st.dtft.dt_X_ncols ≠ 0 then
    .error (.valueError "Can only predict on a frame that has the same number of features as was used for model training")
  else
    .ok (st.dtft.predict_table dt_X)

/-- Column loop of py::Ftrl::set_model (py_ftrl.cc lines 380-395): each column
must have the expected storage type; odd-indexed (n) columns must be free of
negative values; the engine set_model call sits inside the loop body, so the
table is installed once per validated column. -/
def Ftrl.set_model_loop (m : FtrlModel) (dt_model : DataTable) (expected : SType) :
    List Column → Nat → Except PyError FtrlModel
  | [], _ => .ok m
  | c :: rest, i =>
    if c.stype ≠ expected then
      .error (.valueError ("Column " ++ toString i ++ " in the model frame has a wrong type"))
    else if i % 2 = 1 ∧ Validator.has_negatives c = true then
      .error (.valueError ("Column " ++ toString i ++ " cannot have negative values"))
    else
      Ftrl.set_model_loop { m with model := some dt_model } dt_model expected rest (i + 1)

/-- py::Ftrl::set_model (py_ftrl.cc lines 352-396). None resets the model.
Otherwise the row count must equal nbins and the column count must be even;
then each column is checked against the expected storage type, which the
source computes as FLOAT32 when double_precision is set and FLOAT64 otherwise
(line 376), and odd-indexed columns are checked for negative values. -/
def Ftrl.set_model (st : PyFtrl) (model : PyValue) : Except PyError PyFtrl :=
  match model with
  | .pynone => .ok { st with reg_type := .NONE, dtft := st.dtft.reset }
  | .pyframe dt_model =>
    if dt_model.nrows ≠ st.dtft.params.nbins ∨ dt_model.ncols % 2 ≠ 0 then
      .error (.valueError "Model frame must have nbins rows, and an even number of columns")
    else
      match Ftrl.set_model_loop st.dtft dt_model
              (if st.dtft.params.double_precision then .FLOAT32 else .FLOAT64)
              dt_model.columns 0 with
      | .error e => .error e
      | .ok m => .ok { st with dtft := m }
  | _ => .error (.typeError "expected a frame")

/-- py::Ftrl::get_model (py_ftrl.cc lines 338-348): the weight table for a
trained model, None otherwise. -/
def Ftrl.get_model (st : PyFtrl) : Option DataTable :=
  if st.dtft.is_trained then some (st.dtft.model.getD emptyTable) else none

/-- py::Ftrl::get_fi (py_ftrl.cc lines 410-422): the feature-importance table
for a trained model, None otherwise. -/
def Ftrl.get_fi (st : PyFtrl) : Option DataTable :=
  if st.dtft.is_trained then some st.dtft.fi else none

/-- py::Ftrl::get_colname_hashes (py_ftrl.cc lines 452-465): a tuple with one
hash per training column for a trained model, None otherwise. -/
def Ftrl.get_colname_hashes (st : PyFtrl) : Option (List Nat) :=
  if st.dtft.is_trained then
    some ((List.range st.dtft.dt_X_ncols).map (fun i => st.dtft.colname_hashes.getD i 0))
  else none

/-- py::Ftrl::set_alpha (py_ftrl.cc lines 484-488). -/
def Ftrl.set_alpha (st : PyFtrl) (v : PyValue) : Except PyError PyFtrl := do
  let a ← v.to_double
  Validator.check_positive a "alpha"
  pure { st with dtft.params.alpha := a }

/-- py::Ftrl::set_beta (py_ftrl.cc lines 507-511). -/
def Ftrl.set_beta (st : PyFtrl) (v : PyValue) : Except PyError PyFtrl := do
  let b ← v.to_double
  Validator.check_not_negative b "beta"
  pure { st with dtft.params.beta := b }

/-- py::Ftrl::set_lambda1 (py_ftrl.cc lines 530-534). -/
def Ftrl.set_lambda1 (st : PyFtrl) (v : PyValue) : Except PyError PyFtrl := do
  let l ← v.to_double
  Validator.check_not_negative l "lambda1"
  pure { st with dtft.params.lambda1 := l }

/-- py::Ftrl::set_lambda2 (py_ftrl.cc lines 553-557). -/
def Ftrl.set_lambda2 (st : PyFtrl) (v : PyValue) : Except PyError PyFtrl := do
  let l ← v.to_double
  Validator.check_not_negative l "lambda2"
  pure { st with dtft.params.lambda2 := l }

/-- py::Ftrl::set_nbins (py_ftrl.cc lines 576-585): a trained model rejects the
assignment before even converting the value; otherwise the value is converted
and checked positive. -/
def Ftrl.set_nbins (st : PyFtrl) (v : PyValue) : Except PyError PyFtrl :=
  if st.dtft.is_trained then
    .error (.valueError "Cannot set nbins for a trained model, reset this model or create a new one")
  else
    match v.to_size_t with
    | .error e => .error e
    | .ok nb =>
      match Validator.check_positive (nb : Rat) "nbins" with
      | .error e => .error e
      | .ok _ => .ok { st with dtft.params.nbins := nb }

/-- py::Ftrl::set_nepochs (py_ftrl.cc lines 604-607): no validation. -/
def Ftrl.set_nepochs (st : PyFtrl) (v : PyValue) : Except PyError PyFtrl := do
  let ne ← v.to_size_t
  pure { st with dtft.params.nepochs := ne }

/-- py::Ftrl::set_interactions (py_ftrl.cc lines 626-629). -/
def Ftrl.set_interactions (st : PyFtrl) (v : PyValue) : Except PyError PyFtrl := do
  let ia ← v.to_bool_strict
  pure { st with dtft.params.interactions := ia }

/-- py::Ftrl::set_double_precision (py_ftrl.cc lines 646-649). The source body
converts the argument and then calls dtft.set_interactions with it, so the
interactions flag is what gets updated. -/
def Ftrl.set_double_precision (st : PyFtrl) (v : PyValue) : Except PyError PyFtrl := do
  let dp ← v.to_bool_strict
  pure { st with dtft.params.interactions := dp }

/-- py::Ftrl::get_params_tuple (py_ftrl.cc lines 702-712): the source allocates
otuple(7) and fills positions 0 through 6 with alpha, beta, lambda1, lambda2,
nbins, nepochs and interactions; double_precision is not included. -/
def Ftrl.get_params_tuple (st : PyFtrl) : PyValue :=
  .pytuple [.pyfloat st.dtft.params.alpha,
            .pyfloat st.dtft.params.beta,
            .pyfloat st.dtft.params.lambda1,
            .pyfloat st.dtft.params.lambda2,
            .pyint (st.dtft.params.nbins : Int),
            .pyint (st.dtft.params.nepochs : Int),
            .pybool st.dtft.params.interactions]

/-- py::Ftrl::set_params_tuple (py_ftrl.cc lines 715-730): requires exactly 8
elements, then applies the individual setters in order, ending with
set_double_precision. -/
def Ftrl.set_params_tuple (st : PyFtrl) (params : PyValue) : Except PyError PyFtrl := do
  let tup ← params.to_otuple
  if tup.length ≠ 8 then
    throw (.valueError ("Tuple of FTRL parameters should have 8 elements, got: "
                        ++ toString tup.length))
  let st1 ← Ftrl.set_alpha st (tup.getD 0 .pynone)
  let st2 ← Ftrl.set_beta st1 (tup.getD 1 .pynone)
  let st3 ← Ftrl.set_lambda1 st2 (tup.getD 2 .pynone)
  let st4 ← Ftrl.set_lambda2 st3 (tup.getD 3 .pynone)
  let st5 ← Ftrl.set_nbins st4 (tup.getD 4 .pynone)
  let st6 ← Ftrl.set_nepochs st5 (tup.getD 5 .pynone)
  let st7 ← Ftrl.set_interactions st6 (tup.getD 6 .pynone)
  Ftrl.set_double_precision st7 (tup.getD 7 .pynone)

/-- py::Ftrl::get_model viewed as a Python value (frame or None), as consumed
by m__getstate__. -/
def Ftrl.get_model_py (st : PyFtrl) : PyValue :=
  match Ftrl.get_model st with
  | some dt => .pyframe dt
  | none => .pynone

/-- py::Ftrl::get_fi_tuple (py_ftrl.cc lines 425-437): a 1-tuple holding the
feature-importance frame for a trained model, None otherwise. -/
def Ftrl.get_fi_tuple (st : PyFtrl) : PyValue :=
  if st.dtft.is_trained then .pytuple [.pyframe st.dtft.fi] else .pynone

/-- py::Ftrl::m__getstate__ (py_ftrl.cc lines 741-753): the 4-tuple of the
params tuple, the model frame (or None), the feature-importance 1-tuple (or
None) and the regression-type tag as an integer. -/
def Ftrl.m__getstate__ (st : PyFtrl) : PyValue :=
  .pytuple [Ftrl.get_params_tuple st,
            Ftrl.get_model_py st,
            Ftrl.get_fi_tuple st,
            .pyint st.reg_type.toInt]

/-- py::Ftrl::m__setstate__ (py_ftrl.cc lines 759-786): reads element 7 of the
params component to pick the precision of the fresh engine (an out-of-range
tuple access is modelled as an error), then applies set_params_tuple,
set_model, the feature-importance frame when the component is a frame, and
finally the regression-type tag. -/
def Ftrl.m__setstate__ (state : PyValue) : Except PyError PyFtrl := do
  let pickle ← state.to_otuple
  let p0 ← (pickle.getD 0 .pynone).to_otuple
  let dp ← match p0.get? 7 with
    | some v => v.to_bool_strict
    | none => throw (.typeError "tuple index out of range")
  let fresh : PyFtrl := { dtft := { params := { double_precision := dp } } }
  let st1 ← Ftrl.set_params_tuple fresh (pickle.getD 0 .pynone)
  let st2 ← Ftrl.set_model st1 (pickle.getD 1 .pynone)
  let st3 := match pickle.getD 2 .pynone with
    | .pyframe dt_fi => { st2 with dtft.fi := dt_fi }
    | _ => st2
  let rt ← (pickle.getD 3 .pynone).to_int32
  pure { st3 with reg_type := RegType.ofInt rt }

/-! Concrete states and frames used to evaluate the binding operations. -/

/-- A freshly constructed model with all-default hyperparameters: untrained,
single precision, no interactions. -/
def freshState : PyFtrl := { dtft := { params := {} } }

/-- A trained model state: nbins = 2, an installed 2-column weight table, a
feature-importance table, training column count 2 and two column hashes. -/
def trainedState : PyFtrl :=
  { dtft := { params := { nbins := 2 },
              model := some { nrows := 2,
                              columns := [{ stype := .FLOAT32, data := [0, 0] },
                                          { stype := .FLOAT32, data := [0, 0] }] },
              fi := { nrows := 1, columns := [{ stype := .FLOAT32, data := [0] }] },
              dt_X_ncols := 2,
              colname_hashes := [11, 12] } }

/-- Default column used with List.getD. -/
def defaultColumn : Column := { stype := .FLOAT64, data := [] }

/-- An untrained model with nbins = 2 and default (single) precision. -/
def c5_base : PyFtrl := { dtft := { params := { nbins := 2 } } }

/-- A 2-row, 2-column FLOAT64 weight table with non-negative values. -/
def c5_table : DataTable :=
  { nrows := 2, columns := [{ stype := .FLOAT64, data := [0, 0] },
                            { stype := .FLOAT64, data := [0, 0] }] }

/-- The state reached from c5_base by installing c5_table through set_model:
trained, but with a recorded training column count of zero. -/
def c5_state : PyFtrl :=
  { dtft := { params := { nbins := 2 }, model := some c5_table } }

/-- A one-column input frame. -/
def c5_X : DataTable :=
  { nrows := 1, columns := [{ stype := .FLOAT64, data := [5] }] }

/-- An untrained model with nbins = 2 and double precision configured. -/
def c2_base : PyFtrl :=
  { dtft := { params := { nbins := 2, double_precision := true } } }

/-- A weight table of the correct shape whose columns are FLOAT64, the dtype
that matches double precision. -/
def c2_table64 : DataTable :=
  { nrows := 2, columns := [{ stype := .FLOAT64, data := [0, 0] },
                            { stype := .FLOAT64, data := [0, 0] }] }

/-- A weight table of the correct shape whose columns are FLOAT32, the dtype
that mismatches double precision. -/
def c2_table32 : DataTable :=
  { nrows := 2, columns := [{ stype := .FLOAT32, data := [0, 0] },
                            { stype := .FLOAT32, data := [0, 0] }] }

/-- A params bundle that is valid except for nbins = 0. -/
def c3_bundle : FtrlParams :=
  { alpha := mkRat 1 10, beta := 0, lambda1 := 0, lambda2 := 0, nbins := 0,
    nepochs := 1, interactions := false, double_precision := false }

/-! Claim theorems. -/

/-- C1: the persistence record of m__getstate__ carries a 7-element (not
8-element) hyperparameter tuple, because get_params_tuple omits
double_precision; feeding the record back through m__setstate__ fails (element
7 of the params component does not exist, and set_params_tuple itself demands
8 elements), so the export/restore round trip does not succeed. -/
theorem getstate_params_tuple_restore_fails :
    (match Ftrl.get_params_tuple freshState with
     | .pytuple xs => xs.length
     | _ => 0) = 7 ∧
    errored (Ftrl.set_params_tuple freshState (Ftrl.get_params_tuple freshState)) = true ∧
    errored (Ftrl.m__setstate__ (Ftrl.m__getstate__ freshState)) = true := by
  refine ⟨rfl, rfl, rfl⟩

/-- C2: with double_precision configured, set_model rejects a weight table
whose columns are FLOAT64 (the matching dtype) and accepts one whose columns
are FLOAT32 (the mismatching dtype): the dtype expectation at py_ftrl.cc line
376 is inverted with respect to the configured precision. -/
theorem set_model_dtype_check_inverted :
    errored (Ftrl.set_model c2_base (.pyframe c2_table64)) = true ∧
    errored (Ftrl.set_model c2_base (.pyframe c2_table32)) = false := by
  refine ⟨rfl, rfl⟩

/-- C3: constructing with nbins = 0 through the params bundle succeeds (the
bundle path validates nbins with check_not_negative), while the same nbins = 0
as an individual argument is rejected; the documented success case with
alpha = 0.1, beta = 0, lambda1 = 0, lambda2 = 0, nbins = 100 succeeds. -/
theorem init_accepts_nbins_zero_via_bundle :
    errored (Ftrl.m__init__ { params := some c3_bundle }) = false ∧
    errored (Ftrl.m__init__ { nbins := some 0 }) = true ∧
    errored (Ftrl.m__init__ { alpha := some (mkRat 1 10), beta := some 0,
                              lambda1 := some 0, lambda2 := some 0,
                              nbins := some 100 }) = false := by
  refine ⟨by decide, by decide, by decide⟩

/-- C4: invoking the double_precision setter with true on a model whose two
flags are both false flips the interactions flag and leaves double_precision
unchanged: the setter body calls set_interactions. -/
theorem set_double_precision_updates_interactions :
    freshState.dtft.params.double_precision = false ∧
    freshState.dtft.params.interactions = false ∧
    (Ftrl.set_double_precision freshState (.pybool true)).map
        (fun s => (s.dtft.params.double_precision, s.dtft.params.interactions))
      = .ok (false, true) := by
  refine ⟨rfl, rfl, rfl⟩

/-- C5 (amended): predict rejects an untrained model; on a trained model whose
recorded training column count is nonzero it rejects an input frame with a
different column count; but when the recorded training column count is zero
(a model installed through set_model rather than fit) the column-count check
is skipped and predict succeeds on any input frame. -/
theorem predict_trained_guard (st : PyFtrl) (dt_X : DataTable) :
    (st.dtft.is_trained = false →
      Ftrl.predict st dt_X =
        .error (.valueError "Cannot make any predictions, train or set the model first")) ∧
    (st.dtft.is_trained = true → st.dtft.dt_X_ncols ≠ 0 →
     dt_X.ncols ≠ st.dtft.dt_X_ncols →
      Ftrl.predict st dt_X =
        .error (.valueError "Can only predict on a frame that has the same number of features as was used for model training")) ∧
    (st.dtft.is_trained = true → st.dtft.dt_X_ncols = 0 →
      ∃ p, Ftrl.predict st dt_X = .ok p) := by
  unfold Ftrl.predict
  refine ⟨?_, ?_, ?_⟩
  · intro h
    simp [h]
  · intro h1 h2 h3
    simp [h1, h2, h3]
  · intro h1 h2
    exact ⟨st.dtft.predict_table dt_X, by simp [h1, h2]⟩

/-- Witness for C5: the untrained fresh model is rejected; the trained model
with recorded column count 2 rejects a 1-column frame; the trained model with
recorded column count 0 accepts a 1-column frame. -/
theorem predict_trained_guard_witness :
    Ftrl.predict freshState c5_X =
      .error (.valueError "Cannot make any predictions, train or set the model first") ∧
    Ftrl.predict trainedState c5_X =
      .error (.valueError "Can only predict on a frame that has the same number of features as was used for model training") ∧
    (∃ p, Ftrl.predict c5_state c5_X = .ok p) :=
  ⟨(predict_trained_guard freshState c5_X).1 rfl,
   (predict_trained_guard trainedState c5_X).2.1 rfl (by decide) (by decide),
   (predict_trained_guard c5_state c5_X).2.2 rfl rfl⟩

/-- Counterexample for C5 as stated: a model installed through set_model is
trained with a recorded training column count of zero, yet predict succeeds on
a 1-column frame, so a zero-training-column model is predictable. -/
theorem predict_zero_traincols_predictable :
    Ftrl.set_model c5_base (.pyframe c5_table) = .ok c5_state ∧
    c5_state.dtft.is_trained = true ∧
    c5_state.dtft.dt_X_ncols = 0 ∧
    c5_X.ncols = 1 ∧
    errored (Ftrl.predict c5_state c5_X) = false := by
  refine ⟨rfl, rfl, rfl, rfl, by decide⟩

/-- Helper for C6: any of the four shape violations makes fit raise a
ValueError. -/
theorem fit_errors_of_bad_shape (st : PyFtrl) (dt_X dt_y : DataTable)
    (h : dt_X.ncols = 0 ∨ dt_X.nrows = 0 ∨ dt_y.ncols ≠ 1 ∨ dt_X.nrows ≠ dt_y.nrows) :
    ∃ msg, Ftrl.fit st dt_X dt_y = .error (.valueError msg) := by
  unfold Ftrl.fit
  by_cases h1 : dt_X.ncols = 0
  · exact ⟨"Training frame must have at least one column", by simp [h1]⟩
  · by_cases h2 : dt_X.nrows = 0
    · exact ⟨"Training frame cannot be empty", by simp [h1, h2]⟩
    · by_cases h3 : dt_y.ncols = 1
      · rcases h with h | h | h | h
        · exact absurd h h1
        · exact absurd h h2
        · exact absurd h3 h
        · exact ⟨"Target column must have the same number of rows as the training frame",
                 by simp [h1, h2, h3, h]⟩
      · exact ⟨"Target frame must have exactly one column", by simp [h1, h2, h3]⟩

/-- C6: whenever X has no columns, X has no rows, y does not have exactly one
column, or the row counts of X and y differ, fit raises a ValueError; the
error is raised before any model state is mutated, so the post-call state
equals the pre-call state. -/
theorem fit_shape_errors (st : PyFtrl) (dt_X dt_y : DataTable)
    (h : dt_X.ncols = 0 ∨ dt_X.nrows = 0 ∨ dt_y.ncols ≠ 1 ∨ dt_X.nrows ≠ dt_y.nrows) :
    (Ftrl.fit_result st dt_X dt_y).1 = st ∧
    ∃ msg, (Ftrl.fit_result st dt_X dt_y).2 = some (.valueError msg) := by
  obtain ⟨msg, hm⟩ := fit_errors_of_bad_shape st dt_X dt_y h
  unfold Ftrl.fit_result
  rw [hm]
  exact ⟨rfl, msg, rfl⟩

/-- A 3-row frame with no columns. -/
def c6_X : DataTable := { nrows := 3, columns := [] }

/-- A 3-row target frame with one boolean column. -/
def c6_y : DataTable := { nrows := 3, columns := [{ stype := .BOOL8, data := [0, 0, 1] }] }

/-- Witness for C6: fitting a fresh model on a 0-column frame raises an error
and leaves the state unchanged. -/
theorem fit_shape_errors_witness :
    (Ftrl.fit_result freshState c6_X c6_y).1 = freshState ∧
    ∃ msg, (Ftrl.fit_result freshState c6_X c6_y).2 = some (.valueError msg) :=
  fit_shape_errors freshState c6_X c6_y (Or.inl rfl)

/-- C7: an empty label list is normalized to the single default label target;
a single-element list is rejected; a two-element list is kept with both labels
in order. -/
theorem set_labels_normalization (a b : String) :
    Ftrl.set_labels [] = .ok ["target"] ∧
    (∃ msg, Ftrl.set_labels [a] = .error (.valueError msg)) ∧
    Ftrl.set_labels [a, b] = .ok [a, b] := by
  refine ⟨rfl, ⟨_, rfl⟩, rfl⟩

/-- Witness for C7 at concrete labels. -/
theorem set_labels_normalization_witness :
    Ftrl.set_labels [] = .ok ["target"] ∧
    (∃ msg, Ftrl.set_labels ["x"] = .error (.valueError msg)) ∧
    Ftrl.set_labels ["x", "y"] = .ok ["x", "y"] :=
  set_labels_normalization "x" "y"

/-- Helper for C8: the column loop of set_model errors whenever some remaining
column at an odd absolute index contains a negative value. -/
theorem set_model_loop_errors (dt : DataTable) (expected : SType) :
    ∀ (cols : List Column) (i : Nat) (m : FtrlModel),
      (∃ j, j < cols.length ∧ (i + j) % 2 = 1 ∧
            Validator.has_negatives (cols.getD j defaultColumn) = true) →
      errored (Ftrl.set_model_loop m dt expected cols i) = true := by
  intro cols
  induction cols with
  | nil =>
    intro i m hj
    obtain ⟨j, hjlen, -, -⟩ := hj
    simp at hjlen
  | cons c rest ih =>
    intro i m hj
    obtain ⟨j, hjlen, hpar, hneg⟩ := hj
    unfold Ftrl.set_model_loop
    by_cases hst : c.stype ≠ expected
    · rw [if_pos hst]
      rfl
    · by_cases hbad : i % 2 = 1 ∧ Validator.has_negatives c = true
      · rw [if_neg hst, if_pos hbad]
        rfl
      · rw [if_neg hst, if_neg hbad]
        apply ih
        rcases j with - | j
        · exfalso
          apply hbad
          constructor
          · simpa using hpar
          · simpa using hneg
        · refine ⟨j, ?_, ?_, ?_⟩
          · simp only [List.length_cons] at hjlen
            omega
          · omega
          · simpa using hneg

/-- C8: set_model raises an error for every non-None weight table that has an
odd number of columns, or a row count different from nbins, or a negative
value in a column at an odd index (the n column of a (z, n) pair). -/
theorem set_model_rejects_bad_tables (st : PyFtrl) (dt : DataTable)
    (h : dt.ncols % 2 = 1 ∨ dt.nrows ≠ st.dtft.params.nbins ∨
         ∃ j, j < dt.columns.length ∧ j % 2 = 1 ∧
              Validator.has_negatives (dt.columns.getD j defaultColumn) = true) :
    errored (Ftrl.set_model st (.pyframe dt)) = true := by
  unfold Ftrl.set_model
  dsimp only
  by_cases hs : dt.nrows ≠ st.dtft.params.nbins ∨ dt.ncols % 2 ≠ 0
  · rw [if_pos hs]
    rfl
  · rw [if_neg hs]
    push_neg at hs
    obtain ⟨hrows, hcols⟩ := hs
    rcases h with h | h | h
    · omega
    · exact absurd hrows h
    · obtain ⟨j, hj, hpar, hneg⟩ := h
      have hz := set_model_loop_errors dt
        (if st.dtft.params.double_precision then SType.FLOAT32 else SType.FLOAT64)
        dt.columns 0 st.dtft ⟨j, hj, by omega, hneg⟩
      cases hloop : Ftrl.set_model_loop st.dtft dt
          (if st.dtft.params.double_precision then SType.FLOAT32 else SType.FLOAT64)
          dt.columns 0 with
      | error e => rfl
      | ok m =>
        rw [hloop] at hz
        simp [errored] at hz

/-- A table with 5 rows and a negative value in column 1, the first n column. -/
def c8_table : DataTable :=
  { nrows := 5, columns := [{ stype := .FLOAT64, data := [0] },
                            { stype := .FLOAT64, data := [-1] }] }

/-- Witness for C8: the fresh model rejects a table whose n column holds a
negative value (the table also has the wrong row count, either way it is
rejected). -/
theorem set_model_rejects_bad_tables_witness :
    errored (Ftrl.set_model freshState (.pyframe c8_table)) = true :=
  set_model_rejects_bad_tables freshState c8_table
    (Or.inr (Or.inr ⟨1, by decide, rfl, by decide⟩))

/-- C9: on a trained model, assigning nbins fails for every value with the
configuration error instructing the caller to reset the model or create a new
one, before the value is even examined; on an untrained model, assigning a
positive nbins succeeds and updates exactly the nbins parameter. -/
theorem set_nbins_guard (st : PyFtrl) :
    (∀ v : PyValue, st.dtft.is_trained = true →
      Ftrl.set_nbins st v =
        .error (.valueError "Cannot set nbins for a trained model, reset this model or create a new one")) ∧
    (∀ n : Nat, st.dtft.is_trained = false → 0 < n →
      Ftrl.set_nbins st (.pyint (n : Int)) = .ok { st with dtft.params.nbins := n }) := by
  constructor
  · intro v h
    unfold Ftrl.set_nbins
    rw [if_pos h]
  · intro n h hn
    unfold Ftrl.set_nbins
    rw [if_neg (by simp [h])]
    have h0 : ¬((n : Int) < 0) := by omega
    have h1 : ((n : Int)).toNat = n := by omega
    have h2 : ¬((n : Rat) ≤ 0) := not_le.mpr (by exact_mod_cast hn)
    simp [PyValue.to_size_t, h0, h1, Validator.check_positive, h2]

/-- Witness for C9: the trained state rejects an nbins assignment; the fresh
untrained state accepts a positive nbins. -/
theorem set_nbins_guard_witness :
    Ftrl.set_nbins trainedState (.pyint 7) =
      .error (.valueError "Cannot set nbins for a trained model, reset this model or create a new one") ∧
    Ftrl.set_nbins freshState (.pyint ((5 : Nat) : Int)) =
      .ok { freshState with dtft.params.nbins := 5 } :=
  ⟨(set_nbins_guard trainedState).1 (.pyint 7) rfl,
   (set_nbins_guard freshState).2 5 rfl (by decide)⟩

/-- C10: on an untrained model the model, feature-importance and column-hash
accessors all return None; on a trained model they all return a value. -/
theorem getters_none_iff_untrained (st : PyFtrl) :
    (st.dtft.is_trained = false →
      Ftrl.get_model st = none ∧ Ftrl.get_fi st = none ∧
      Ftrl.get_colname_hashes st = none) ∧
    (st.dtft.is_trained = true →
      (Ftrl.get_model st).isSome = true ∧ (Ftrl.get_fi st).isSome = true ∧
      (Ftrl.get_colname_hashes st).isSome = true) := by
  constructor
  · intro h
    simp [Ftrl.get_model, Ftrl.get_fi, Ftrl.get_colname_hashes, h]
  · intro h
    simp [Ftrl.get_model, Ftrl.get_fi, Ftrl.get_colname_hashes, h]

/-- Witness for C10 at the fresh untrained state and the trained state. -/
theorem getters_none_iff_untrained_witness :
    (Ftrl.get_model freshState = none ∧ Ftrl.get_fi freshState = none ∧
     Ftrl.get_colname_hashes freshState = none) ∧
    ((Ftrl.get_model trainedState).isSome = true ∧
     (Ftrl.get_fi trainedState).isSome = true ∧
     (Ftrl.get_colname_hashes trainedState).isSome = true) :=
  ⟨(getters_none_iff_untrained freshState).1 rfl,
   (getters_none_iff_untrained trainedState).2 rfl⟩

end FtrlSpec
